import Mathlib

/-!
Shallow embedding of src/src-tauri/src/lib.rs (ticketbase-desktop).

The Rust file exposes two Tauri commands:
  - greet(name) : pure string formatting;
  - open_ticket_window(app, ticket_id) : look up the host window labelled
    "ticket-<ticket_id>"; if present, focus it; otherwise build a new webview
    window with that label, URL "/?ticketWindow=true#/ticket/<ticket_id>",
    title "Ticket #<ticket_id>", inner size 1000x800, minimum inner size
    600x400, centered, discarding the handle.

The windowing host is modelled as a list of live windows (the host window
state).  Host calls that can fail (set_focus, build) are modelled by a
HostResponses oracle that says whether the host accepts the call or rejects
it with a diagnostic string.  Each invocation returns the Result value, the
new host window state, and the trace of host calls it performed.
-/

namespace Ticketbase

/-- A live host window: its label (the lookup key) together with the
configuration the builder was given (URL, title, sizes, centering). -/
structure Window where
  label : String
  url : String
  title : String
  width : Nat
  height : Nat
  minWidth : Nat
  minHeight : Nat
  centered : Bool
deriving DecidableEq

/-- The host window state: the set of live windows, as a list. -/
abbrev HostState := List Window

/-- A host call performed by an invocation: a lookup by label, a focus
request on a label, or a window-construction request. -/
inductive HostAction where
  | lookup (label : String)
  | focus (label : String)
  | create (w : Window)
deriving DecidableEq

/-- Host responses for one invocation: whether the focus call fails (and
with which diagnostic), and whether the build call fails. `none` means the
host accepts the call. -/
structure HostResponses where
  focusErr : Option String
  buildErr : Option String
deriving DecidableEq

/-- Outcome of one invocation: the returned Result, the host window state
after the call, and the sequence of host calls performed. -/
structure RunResult where
  result : Except String Unit
  state : HostState
  trace : List HostAction

/-- `fn greet(name: &str) -> String`. -/
def greet (name : String) : String :=
  "Hello, " ++ name ++ "! You\u0027ve been greeted from Rust!"

/-- The window label `format!("ticket-{}", ticket_id)`. -/
def window_label (ticket_id : Nat) : String :=
  "ticket-" ++ Nat.repr ticket_id

/-- The webview URL `format!("/?ticketWindow=true#/ticket/{}", ticket_id)`. -/
def ticket_url (ticket_id : Nat) : String :=
  "/?ticketWindow=true#/ticket/" ++ Nat.repr ticket_id

/-- The window title `format!("Ticket #{}", ticket_id)`. -/
def ticket_title (ticket_id : Nat) : String :=
  "Ticket #" ++ Nat.repr ticket_id

/-- `app.get_webview_window(&label)`: the host looks up a live window by
label. -/
def get_webview_window (s : HostState) (label : String) : Option Window :=
  s.find? (fun w => w.label == label)

/-- The window configured by the WebviewWindowBuilder chain in
open_ticket_window: derived label, App URL, title "Ticket #<id>",
inner_size 1000x800, min_inner_size 600x400, centered. -/
def newTicketWindow (ticket_id : Nat) : Window :=
  { label := window_label ticket_id
    url := ticket_url ticket_id
    title := ticket_title ticket_id
    width := 1000
    height := 800
    minWidth := 600
    minHeight := 400
    centered := true }

/-- `async fn open_ticket_window(app, ticket_id) -> Result<(), String>`.
If a window with the derived label exists, request focus on it, mapping a
host error to its string; otherwise build the configured window, mapping a
build error to its string; on success the handle is discarded. -/
def open_ticket_window (r : HostResponses) (s : HostState) (ticket_id : Nat) :
    RunResult :=
  match get_webview_window s (window_label ticket_id) with
  | some _ =>
    match r.focusErr with
    | some e =>
      ⟨Except.error e, s,
        [HostAction.lookup (window_label ticket_id),
         HostAction.focus (window_label ticket_id)]⟩
    | none =>
      ⟨Except.ok (), s,
        [HostAction.lookup (window_label ticket_id),
         HostAction.focus (window_label ticket_id)]⟩
  | none =>
    match r.buildErr with
    | some e =>
      ⟨Except.error e, s,
        [HostAction.lookup (window_label ticket_id),
         HostAction.create (newTicketWindow ticket_id)]⟩
    | none =>
      ⟨Except.ok (), s ++ [newTicketWindow ticket_id],
        [HostAction.lookup (window_label ticket_id),
         HostAction.create (newTicketWindow ticket_id)]⟩

/-- Number of live windows carrying a given label. -/
def labelCount (s : HostState) (l : String) : Nat :=
  (s.filter (fun w => w.label == l)).length

/-- The singleton invariant: for every ticket identifier, at most one live
window carries the label "ticket-<id>". -/
def TicketSingleton (s : HostState) : Prop :=
  ∀ id : Nat, labelCount s (window_label id) ≤ 1

/-- One step of the sequential system: a completed invocation of
open_ticket_window, for some ticket identifier and host responses. -/
inductive Step : HostState → HostState → Prop where
  | invoke (r : HostResponses) (ticket_id : Nat) (s : HostState) :
      Step s (open_ticket_window r s ticket_id).state

/-- Host window states reachable from s0 by sequential invocations. -/
inductive Reachable (s0 : HostState) : HostState → Prop where
  | refl : Reachable s0 s0
  | tail {s t : HostState} : Reachable s0 s → Step s t → Reachable s0 t

/-! Helper development: decimal representation is injective, so the label
derivation id ↦ "ticket-<id>" is injective. -/

/-- Decode one decimal digit character back to its value. -/
def decodeDigit (c : Char) : Nat := c.toNat - 48

/-- Decode a big-endian list of decimal digit characters. -/
def decodeDec (cs : List Char) : Nat :=
  cs.foldl (fun a c => 10 * a + decodeDigit c) 0

theorem decodeDigit_digitChar : ∀ d : Nat, d < 10 →
    decodeDigit (Nat.digitChar d) = d := by
  decide

theorem toDigitsCore_acc (f : Nat) : ∀ (n : Nat) (acc : List Char),
    Nat.toDigitsCore 10 f n acc = Nat.toDigitsCore 10 f n [] ++ acc := by
  induction f with
  | zero => intro n acc; simp [Nat.toDigitsCore]
  | succ f ih =>
    intro n acc
    simp only [Nat.toDigitsCore]
    by_cases h : n / 10 = 0
    · simp [h]
    · simp only [h, if_false]
      rw [ih (n / 10) (Nat.digitChar (n % 10) :: acc),
        ih (n / 10) [Nat.digitChar (n % 10)]]
      simp

theorem decodeDec_toDigitsCore (f : Nat) : ∀ n : Nat, n < f →
    decodeDec (Nat.toDigitsCore 10 f n []) = n := by
  induction f with
  | zero => intro n h; omega
  | succ f ih =>
    intro n h
    simp only [Nat.toDigitsCore]
    by_cases h0 : n / 10 = 0
    · have hn : n < 10 := by omega
      simp only [h0, if_true]
      simp only [decodeDec, List.foldl, Nat.mul_zero, Nat.zero_add]
      rw [Nat.mod_eq_of_lt hn]
      exact decodeDigit_digitChar n hn
    · simp only [h0, if_false]
      rw [toDigitsCore_acc]
      have hlt : n / 10 < f := by
        have h1 : 0 < n := by
          rcases Nat.eq_zero_or_pos n with h2 | h2
          · exfalso; apply h0; simp [h2]
          · exact h2
        have := Nat.div_lt_self h1 (by norm_num : 1 < 10)
        omega
      have hdec := ih (n / 10) hlt
      simp only [decodeDec] at hdec ⊢
      rw [List.foldl_append]
      simp [hdec, decodeDigit_digitChar (n % 10) (Nat.mod_lt n (by omega))]
      omega

theorem decodeDec_repr (n : Nat) : decodeDec (Nat.repr n).data = n := by
  have h : (Nat.repr n).data = Nat.toDigits 10 n := by
    simp [Nat.repr, List.asString]
  rw [h, Nat.toDigits]
  exact decodeDec_toDigitsCore (n + 1) n (Nat.lt_succ_self n)

theorem repr_inj {m n : Nat} (h : Nat.repr m = Nat.repr n) : m = n := by
  have h2 : decodeDec (Nat.repr m).data = decodeDec (Nat.repr n).data := by rw [h]
  rwa [decodeDec_repr, decodeDec_repr] at h2

theorem window_label_inj {m n : Nat} (h : window_label m = window_label n) :
    m = n := by
  have hd : (window_label m).data = (window_label n).data := by rw [h]
  simp only [window_label, String.data_append] at hd
  have hr : (Nat.repr m).data = (Nat.repr n).data := List.append_cancel_left hd
  exact repr_inj (String.ext hr)

/-! Helper development: case analysis on an invocation. -/

/-- Every invocation either leaves the window set unchanged, or (when the
lookup found nothing and the host accepted the build) appends the single
configured window. -/
theorem open_state_cases (r : HostResponses) (s : HostState) (ticket_id : Nat) :
    (open_ticket_window r s ticket_id).state = s ∨
    (get_webview_window s (window_label ticket_id) = none ∧
      r.buildErr = none ∧
      (open_ticket_window r s ticket_id).state = s ++ [newTicketWindow ticket_id]) := by
  unfold open_ticket_window
  cases hg : get_webview_window s (window_label ticket_id) with
  | some w => cases r.focusErr <;> simp
  | none => cases hb : r.buildErr <;> simp [hb]

theorem labelCount_append (s t : HostState) (l : String) :
    labelCount (s ++ t) l = labelCount s l + labelCount t l := by
  simp [labelCount, List.filter_append]

theorem labelCount_eq_zero_of_not_found {s : HostState} {l : String}
    (h : get_webview_window s l = none) : labelCount s l = 0 := by
  unfold get_webview_window at h
  unfold labelCount
  rw [List.length_eq_zero, List.filter_eq_nil_iff]
  intro a ha
  exact List.find?_eq_none.mp h a ha

/-- Error characterisation of an invocation: the Result is an error exactly
when the host rejected the focus call (existing window) or the build call
(no existing window), with the host diagnostic as the error value. -/
theorem open_result_error_iff (r : HostResponses) (s : HostState)
    (ticket_id : Nat) (e : String) :
    (open_ticket_window r s ticket_id).result = Except.error e ↔
      ((get_webview_window s (window_label ticket_id)).isSome = true ∧
        r.focusErr = some e) ∨
      (get_webview_window s (window_label ticket_id) = none ∧
        r.buildErr = some e) := by
  unfold open_ticket_window
  cases hg : get_webview_window s (window_label ticket_id) with
  | some w => cases hf : r.focusErr <;> simp [hf]
  | none => cases hb : r.buildErr <;> simp [hb]

/-! Claim theorems. -/

/-- Claim C6: the label derivation id ↦ "ticket-" ++ decimal(id) is a pure
function, deterministic (equal identifiers yield equal labels) and
injective (distinct identifiers yield distinct labels). -/
theorem claim_label_pure_injective :
    (∀ a b : Nat, a = b → window_label a = window_label b) ∧
    (∀ a b : Nat, a ≠ b → window_label a ≠ window_label b) :=
  ⟨fun _ _ h => by rw [h],
   fun _ _ hne h => hne (window_label_inj h)⟩

/-- Witness for C6 at concrete identifiers 1 and 2. -/
theorem claim_label_pure_injective_witness :
    window_label 1 = window_label 1 ∧ window_label 1 ≠ window_label 2 :=
  ⟨claim_label_pure_injective.1 1 1 rfl,
   claim_label_pure_injective.2 1 2 (by decide)⟩

/-- Claim C8: greet is pure and stateless; for every name it returns the
greeting "Hello, <name>!" followed by the fixed Rust tagline, and at
name = "Ada" exactly that string. -/
theorem claim_greet_contract :
    (∀ name : String,
      greet name = "Hello, " ++ name ++ "! You\u0027ve been greeted from Rust!") ∧
    greet ("Ada") = "Hello, Ada! You\u0027ve been greeted from Rust!" :=
  ⟨fun _ => rfl, by decide⟩

/-- Claim C4: the content URL used for the window created by
open_ticket_window is "/?ticketWindow=true#/ticket/<ticket_id>" with the
identifier in decimal; at ticket_id = 42 it is exactly
"/?ticketWindow=true#/ticket/42". -/
theorem claim_ticket_url_contract :
    (∀ id : Nat, ticket_url id = "/?ticketWindow=true#/ticket/" ++ Nat.repr id) ∧
    ticket_url 42 = "/?ticketWindow=true#/ticket/42" ∧
    (∀ (id : Nat) (r : HostResponses),
      HostAction.create (newTicketWindow id) ∈ (open_ticket_window r [] id).trace ∧
      (newTicketWindow id).url = ticket_url id) := by
  refine ⟨fun _ => rfl, by decide, fun id r => ⟨?_, rfl⟩⟩
  unfold open_ticket_window
  have hg : get_webview_window [] (window_label id) = none := rfl
  rw [hg]
  cases r.buildErr <;> simp

/-- Claim C5: open_ticket_window returns an error exactly when a host focus
call (existing-window branch) or build call (creation branch) fails, and the
host diagnostic string is surfaced unmodified as the error value. -/
theorem claim_error_iff (r : HostResponses) (s : HostState) (ticket_id : Nat)
    (e : String) :
    (open_ticket_window r s ticket_id).result = Except.error e ↔
      ((get_webview_window s (window_label ticket_id)).isSome = true ∧
        r.focusErr = some e) ∨
      (get_webview_window s (window_label ticket_id) = none ∧
        r.buildErr = some e) :=
  open_result_error_iff r s ticket_id e

/-- Claim C2: when a window with the derived label already exists, the
invocation performs a focus call on that label and attempts no window
creation, and the window set is unchanged, so no second window appears. -/
theorem claim_focus_existing (r : HostResponses) (s : HostState)
    (ticket_id : Nat) (w : Window)
    (h : get_webview_window s (window_label ticket_id) = some w) :
    (open_ticket_window r s ticket_id).trace =
      [HostAction.lookup (window_label ticket_id),
       HostAction.focus (window_label ticket_id)] ∧
    (∀ w2 : Window,
      HostAction.create w2 ∉ (open_ticket_window r s ticket_id).trace) ∧
    (open_ticket_window r s ticket_id).state = s := by
  unfold open_ticket_window
  rw [h]
  cases r.focusErr <;> simp

/-- Witness for C2: a state holding the ticket-7 window, invoked again
for identifier 7. -/
theorem claim_focus_existing_witness :
    (open_ticket_window ⟨none, none⟩ [newTicketWindow 7] 7).trace =
      [HostAction.lookup (window_label 7), HostAction.focus (window_label 7)] ∧
    (∀ w2 : Window,
      HostAction.create w2 ∉ (open_ticket_window ⟨none, none⟩ [newTicketWindow 7] 7).trace) ∧
    (open_ticket_window ⟨none, none⟩ [newTicketWindow 7] 7).state =
      [newTicketWindow 7] :=
  claim_focus_existing ⟨none, none⟩ [newTicketWindow 7] 7 (newTicketWindow 7)
    (by decide)

/-- Claim C3: when no window with the derived label exists and the host
accepts the build, one invocation appends exactly one window, carrying the
derived label, title "Ticket #<id>", the ticket URL, size 1000x800, minimum
size 600x400 and centered position, and returns success (the RunResult
carries no window handle). -/
theorem claim_first_call_creates (r : HostResponses) (s : HostState)
    (ticket_id : Nat)
    (h : get_webview_window s (window_label ticket_id) = none)
    (hb : r.buildErr = none) :
    (open_ticket_window r s ticket_id).state =
      s ++ [{ label := "ticket-" ++ Nat.repr ticket_id
              url := "/?ticketWindow=true#/ticket/" ++ Nat.repr ticket_id
              title := "Ticket #" ++ Nat.repr ticket_id
              width := 1000
              height := 800
              minWidth := 600
              minHeight := 400
              centered := true }] ∧
    (open_ticket_window r s ticket_id).result = Except.ok () := by
  unfold open_ticket_window
  rw [h, hb]
  exact ⟨rfl, rfl⟩

/-- Witness for C3: creation from the empty window state for identifier 5. -/
theorem claim_first_call_creates_witness :
    (open_ticket_window ⟨none, none⟩ [] 5).state =
      [] ++ [{ label := "ticket-" ++ Nat.repr 5
               url := "/?ticketWindow=true#/ticket/" ++ Nat.repr 5
               title := "Ticket #" ++ Nat.repr 5
               width := 1000
               height := 800
               minWidth := 600
               minHeight := 400
               centered := true }] ∧
    (open_ticket_window ⟨none, none⟩ [] 5).result = Except.ok () :=
  claim_first_call_creates ⟨none, none⟩ [] 5 rfl rfl

/-- Claim C7: an invocation for ticket_id leaves every window whose label
differs from the derived label unchanged: the sublist of such windows in the
resulting state equals that of the initial state. -/
theorem claim_frame (r : HostResponses) (s : HostState) (ticket_id : Nat) :
    (open_ticket_window r s ticket_id).state.filter
        (fun w => !(w.label == window_label ticket_id)) =
      s.filter (fun w => !(w.label == window_label ticket_id)) := by
  rcases open_state_cases r s ticket_id with h | ⟨_, _, h⟩
  · rw [h]
  · rw [h, List.filter_append]
    have hl : (newTicketWindow ticket_id).label = window_label ticket_id := rfl
    simp [hl]

/-- Claim C9: if an invocation returns an error (focus failure or build
failure), it has created no window: the host window state is unchanged. -/
theorem claim_error_atomic (r : HostResponses) (s : HostState)
    (ticket_id : Nat) (e : String)
    (h : (open_ticket_window r s ticket_id).result = Except.error e) :
    (open_ticket_window r s ticket_id).state = s := by
  rcases open_state_cases r s ticket_id with h2 | ⟨hg, hb, _⟩
  · exact h2
  · exfalso
    rw [open_result_error_iff] at h
    rcases h with ⟨hsome, _⟩ | ⟨_, hbe⟩
    · rw [hg] at hsome
      simp at hsome
    · rw [hb] at hbe
      exact Option.noConfusion hbe

/-- Witness for C9: a failing build from the empty window state. -/
theorem claim_error_atomic_witness :
    (open_ticket_window ⟨some ("E"), some ("E")⟩ [] 7).state = [] :=
  claim_error_atomic ⟨some ("E"), some ("E")⟩ [] 7 ("E") rfl

/-- Claim C10: open_ticket_window is stateless and deterministic: two runs
on equal inputs (host responses, host window state, identifier) are equal,
and each run performs the lookup followed by exactly one of a focus or a
create, never both. -/
theorem claim_deterministic (r r2 : HostResponses) (s s2 : HostState)
    (ticket_id ticket_id2 : Nat)
    (hr : r = r2) (hs : s = s2) (hid : ticket_id = ticket_id2) :
    open_ticket_window r s ticket_id = open_ticket_window r2 s2 ticket_id2 ∧
    ((open_ticket_window r s ticket_id).trace =
        [HostAction.lookup (window_label ticket_id),
         HostAction.focus (window_label ticket_id)] ∨
     (open_ticket_window r s ticket_id).trace =
        [HostAction.lookup (window_label ticket_id),
         HostAction.create (newTicketWindow ticket_id)]) := by
  subst hr; subst hs; subst hid
  refine ⟨rfl, ?_⟩
  unfold open_ticket_window
  cases get_webview_window s (window_label ticket_id) with
  | some w => cases r.focusErr <;> simp
  | none => cases r.buildErr <;> simp

/-- Witness for C10 at concrete inputs. -/
theorem claim_deterministic_witness :
    open_ticket_window ⟨none, none⟩ [] 3 = open_ticket_window ⟨none, none⟩ [] 3 ∧
    ((open_ticket_window ⟨none, none⟩ [] 3).trace =
        [HostAction.lookup (window_label 3), HostAction.focus (window_label 3)] ∨
     (open_ticket_window ⟨none, none⟩ [] 3).trace =
        [HostAction.lookup (window_label 3),
         HostAction.create (newTicketWindow 3)]) :=
  claim_deterministic ⟨none, none⟩ ⟨none, none⟩ [] [] 3 3 rfl rfl rfl

/-- One step preserves the singleton invariant. -/
theorem step_preserves_singleton {s t : HostState} (h : Step s t)
    (hs : TicketSingleton s) : TicketSingleton t := by
  rcases h with ⟨r, ticket_id, s⟩
  rcases open_state_cases r s ticket_id with h2 | ⟨hg, _, h2⟩
  · rw [h2]; exact hs
  · rw [h2]
    intro id
    rw [labelCount_append]
    by_cases heq : window_label ticket_id = window_label id
    · have h0 : labelCount s (window_label id) = 0 := by
        rw [← heq]
        exact labelCount_eq_zero_of_not_found hg
      have h1 : labelCount [newTicketWindow ticket_id] (window_label id) ≤ 1 := by
        simp [labelCount, List.filter]
        split <;> simp
      omega
    · have h1 : labelCount [newTicketWindow ticket_id] (window_label id) = 0 := by
        have hbe : (window_label ticket_id == window_label id) = false :=
          beq_eq_false_iff_ne.mpr heq
        simp [labelCount, List.filter, newTicketWindow, hbe]
      have := hs id
      omega

/-- Claim C1: under sequential invocations of open_ticket_window, every
host window state reachable from a state satisfying the singleton invariant
again satisfies it: at most one live window per derived ticket label. -/
theorem claim_singleton_invariant {s0 s : HostState}
    (h0 : TicketSingleton s0) (h : Reachable s0 s) : TicketSingleton s := by
  induction h with
  | refl => exact h0
  | tail _ hstep ih => exact step_preserves_singleton hstep ih

/-- Witness for C1: the state reached from the empty state by one creating
invocation satisfies the singleton invariant. -/
theorem claim_singleton_invariant_witness :
    TicketSingleton (open_ticket_window ⟨none, none⟩ [] 5).state :=
  claim_singleton_invariant
    (by intro id; simp [labelCount])
    (Reachable.tail Reachable.refl (Step.invoke ⟨none, none⟩ 5 []))

end Ticketbase
